import Mathlib

/-!
# Household energy dispatch models: a shallow embedding

This file embeds the optimization-model family of the repository
(`src/opt_model/opt_model.py`, `src/runner/runner.py`) in Lean 4 and proves
properties of the built models, the result-record extraction and the sweep
harness.  All reals are modelled as rationals (`ℚ`): the source builds exact
linear constraints; the external LP solver (Gurobi) is treated as an abstract
collaborator that returns a status code, primal values, an objective value and
dual values.

Conventions:
* per-hour profiles are functions `ℕ → ℚ`, meaningful on hours `h < H`;
* each `addConstr`/`addConstrs` line of a `build_model` becomes one conjunct of
  a `Feasible…` predicate (variable lower/upper bounds declared with
  `addVar(s)` are included as conjuncts as well);
* the python `results` dict is modelled as an association list
  `List (Key × RVal)` written in the insertion order of the source;
* source field names ending in `_ratio` are embedded with the suffix `_frac`
  (e.g. `initial_soc_frac` embeds `initial_soc_ratio`); string dict keys are
  embedded as constructors of the `Key` inductive with the same spelling,
  except `"import"`/`"export"` (Lean keywords, embedded as `imp`/`exp`) and
  the sweep tags `"GE"`/`"tolerance_ratio"` (embedded as `tag_GE`/`tag_tol`).
-/

/-- Keys of the `results` dictionaries of the four model classes, plus the
tags added by the sweep harness. -/
inductive Key where
  | status | objective | import_cost | export_revenue | net_profit
  | imp | exp | pv | demand_served
  | total_import | total_export | total_demand_served
  | dual_daily_demand | dual_hourly_balance | dual_pv_cap
  | discomfort_penalty | served | deviation | reference_load
  | total_served | total_deviation
  | dual_balance | dual_dev_pos | dual_dev_neg
  | charge | discharge | soc | total_charge | total_discharge
  | self_consumption | dual_soc_dyn | dual_soc_init | dual_soc_final
  | battery_cost | battery_scale
  | dual_soc_cap | dual_charge_cap | dual_discharge_cap
  | tag_GE | tag_tol | tag_factor | tag_omega | tag_battery_cost
  deriving DecidableEq, Repr

/-- A value stored in a `results` dictionary: a scalar (`num`), the stored
integer status code (`int`), or a per-hour table (`tab`, embedding the
`{i: …}` dict comprehensions over the hour range). -/
inductive RVal where
  | num : ℚ → RVal
  | int : ℤ → RVal
  | tab : (ℕ → ℚ) → RVal

/-- A `results` dictionary, in insertion order. -/
abbrev Rec := List (Key × RVal)

/-- Dictionary lookup (first binding wins; the embeddings never insert a key
twice except through `setKey`, which erases the old binding). -/
def rlookup (k : Key) : Rec → Option RVal
  | [] => none
  | (k', v) :: r => if k = k' then some v else rlookup k r

/-- Remove every binding of key `k`. -/
def eraseKey (k : Key) : Rec → Rec
  | [] => []
  | (k', v) :: r => if k = k' then eraseKey k r else (k', v) :: eraseKey k r

/-- Dictionary assignment `res[k] = v` (same observable behaviour as the
python dict: the new value shadows any previous one). -/
def setKey (k : Key) (v : RVal) (r : Rec) : Rec := (k, v) :: eraseKey k r

theorem rlookup_setKey_same (k : Key) (v : RVal) (r : Rec) :
    rlookup k (setKey k v r) = some v := by
  simp [setKey, rlookup]

theorem eraseKey_idem (k : Key) (r : Rec) :
    eraseKey k (eraseKey k r) = eraseKey k r := by
  induction r with
  | nil => rfl
  | cons p r ih =>
    obtain ⟨k', v'⟩ := p
    by_cases h : k = k'
    · subst h
      simp [eraseKey, ih]
    · simp [eraseKey, h, ih]

theorem eraseKey_setKey (k : Key) (v : RVal) (r : Rec) :
    eraseKey k (setKey k v r) = eraseKey k r := by
  simp [setKey, eraseKey, eraseKey_idem]

/-! ## Model 1a: base dispatch (class `OptimizationModel1a`) -/

/-- Parameters consumed by `OptimizationModel1a.build_model`. -/
structure Params1a where
  H : ℕ              -- `hours = range(H)`
  pv : ℕ → ℚ
  b : ℕ → ℚ
  s : ℕ → ℚ
  GE : ℚ
  GI : ℚ
  D : ℚ

/-- Primal assignment to the decision variables of model 1a. -/
structure Sol1a where
  x : ℕ → ℚ
  y : ℕ → ℚ
  z : ℕ → ℚ

/-- The feasible set built by `OptimizationModel1a.build_model`: variable
lower bounds, `PVcap`, `DailyDemand`, `HourlyBalance`, `MaxImport`,
`MaxExport`, in source order. -/
def Feasible1a (p : Params1a) (σ : Sol1a) : Prop :=
  (∀ h < p.H, 0 ≤ σ.x h) ∧ (∀ h < p.H, 0 ≤ σ.y h) ∧ (∀ h < p.H, 0 ≤ σ.z h) ∧
  (∀ h < p.H, σ.x h ≤ p.pv h) ∧
  (∑ h ∈ Finset.range p.H, (σ.x h + σ.y h - σ.z h)) ≥ p.D ∧
  (∀ h < p.H, σ.x h - σ.z h ≥ 0) ∧
  (∀ h < p.H, σ.y h ≤ 1000) ∧
  (∀ h < p.H, σ.z h ≤ 500)

/-- Objective set by `OptimizationModel1a.build_model` (maximized). -/
def objective1a (p : Params1a) (σ : Sol1a) : ℚ :=
  ∑ h ∈ Finset.range p.H, (σ.z h * (p.s h - p.GE) - σ.y h * (p.b h + p.GI))

/-- `import_cost` as computed in `OptimizationModel1a._save_results`. -/
def importCost1a (p : Params1a) (σ : Sol1a) : ℚ :=
  ∑ h ∈ Finset.range p.H, σ.y h * (p.b h + p.GI)

/-- `export_rev` as computed in `OptimizationModel1a._save_results`. -/
def exportRev1a (p : Params1a) (σ : Sol1a) : ℚ :=
  ∑ h ∈ Finset.range p.H, σ.z h * (p.s h - p.GE)

/-- Dual values returned by the solver for the named constraints of 1a. -/
structure Duals1a where
  daily : ℚ
  hourly : ℕ → ℚ
  pvcap : ℕ → ℚ

/-- What the solver reports after `model.optimize()` for model 1a: the status
code, and (read only when the status is optimal) primal values, the objective
value `ObjVal` and dual values. -/
structure Out1a where
  status : ℤ
  σ : Sol1a
  objVal : ℚ
  duals : Duals1a

/-- `GRB.OPTIMAL` -/
def GRB_OPTIMAL : ℤ := 2

/-- `OptimizationModel1a._save_results`: fields in source insertion order. -/
def saveResults1a (p : Params1a) (o : Out1a) : Rec :=
  [(Key.objective, RVal.num o.objVal),
   (Key.import_cost, RVal.num (importCost1a p o.σ)),
   (Key.export_revenue, RVal.num (exportRev1a p o.σ)),
   (Key.net_profit, RVal.num (exportRev1a p o.σ - importCost1a p o.σ)),
   (Key.imp, RVal.tab o.σ.y),
   (Key.exp, RVal.tab o.σ.z),
   (Key.pv, RVal.tab o.σ.x),
   (Key.demand_served, RVal.tab (fun i => o.σ.x i + o.σ.y i - o.σ.z i)),
   (Key.total_import, RVal.num (∑ h ∈ Finset.range p.H, o.σ.y h)),
   (Key.total_export, RVal.num (∑ h ∈ Finset.range p.H, o.σ.z h)),
   (Key.total_demand_served,
     RVal.num (∑ h ∈ Finset.range p.H, (o.σ.x h + o.σ.y h - o.σ.z h))),
   (Key.dual_daily_demand, RVal.num o.duals.daily),
   (Key.dual_hourly_balance, RVal.tab o.duals.hourly),
   (Key.dual_pv_cap, RVal.tab o.duals.pvcap)]

/-- `OptimizationModel1a.run`: always records the status; extracts results
only on optimality.  (A total function: no exception is raised on a
non-optimal status.) -/
def run1a (p : Params1a) (o : Out1a) : Rec :=
  (Key.status, RVal.int o.status) ::
    (if o.status = GRB_OPTIMAL then saveResults1a p o else [])

/-! ## Model 1b: flexible load (class `OptimizationModel1b`) -/

/-- Parameters consumed by `OptimizationModel1b.build_model`.  The
`"tolerance"` key may be absent from the params dict, hence the `Option`. -/
structure Params1b where
  H : ℕ
  pv : ℕ → ℚ
  b : ℕ → ℚ
  s : ℕ → ℚ
  GE : ℚ
  GI : ℚ
  ref_load : ℕ → ℚ
  d_hour : ℚ
  lam : ℚ                       -- `lambda_discomfort`
  tolerance : Option (ℕ → ℚ)

/-- `tol = self.params.get("tolerance", {i: 0.0 for i in hours})`. -/
def tol1b (p : Params1b) : ℕ → ℚ := p.tolerance.getD (fun _ => 0)

/-- Primal assignment to the decision variables of model 1b. -/
structure Sol1b where
  x : ℕ → ℚ
  y : ℕ → ℚ
  z : ℕ → ℚ
  served : ℕ → ℚ
  u : ℕ → ℚ
  l : ℕ → ℚ

/-- The feasible set built by `OptimizationModel1b.build_model`: variable
bounds, `PVcap`, `Balance`, `Dev_pos`, `Dev_neg`, in source order. -/
def Feasible1b (p : Params1b) (σ : Sol1b) : Prop :=
  (∀ h < p.H, 0 ≤ σ.x h) ∧ (∀ h < p.H, 0 ≤ σ.y h) ∧ (∀ h < p.H, 0 ≤ σ.z h) ∧
  (∀ h < p.H, 0 ≤ σ.served h ∧ σ.served h ≤ p.d_hour) ∧
  (∀ h < p.H, 0 ≤ σ.u h) ∧ (∀ h < p.H, 0 ≤ σ.l h) ∧
  (∀ h < p.H, σ.x h ≤ p.pv h) ∧
  (∀ h < p.H, σ.served h = σ.x h + σ.y h - σ.z h) ∧
  (∀ h < p.H, σ.u h ≥ σ.served h - p.ref_load h - tol1b p h) ∧
  (∀ h < p.H, σ.u h ≥ p.ref_load h - σ.served h - tol1b p h)

/-- Objective set by `OptimizationModel1b.build_model` (maximized). -/
def objective1b (p : Params1b) (σ : Sol1b) : ℚ :=
  ∑ h ∈ Finset.range p.H,
    (σ.z h * (p.s h - p.GE) - σ.y h * (p.b h + p.GI) - p.lam * σ.u h)

/-- `import_cost` in `OptimizationModel1b._save_results`. -/
def importCost1b (p : Params1b) (σ : Sol1b) : ℚ :=
  ∑ h ∈ Finset.range p.H, σ.y h * (p.b h + p.GI)

/-- `export_rev` in `OptimizationModel1b._save_results`. -/
def exportRev1b (p : Params1b) (σ : Sol1b) : ℚ :=
  ∑ h ∈ Finset.range p.H, σ.z h * (p.s h - p.GE)

/-- `discomfort` in `OptimizationModel1b._save_results`
(`sum(lambda * u[i].X)`). -/
def discomfort1b (p : Params1b) (σ : Sol1b) : ℚ :=
  ∑ h ∈ Finset.range p.H, p.lam * σ.u h

/-- Dual values for the named constraint families of 1b. -/
structure Duals1b where
  pvcap : ℕ → ℚ
  balance : ℕ → ℚ
  dev_pos : ℕ → ℚ
  dev_neg : ℕ → ℚ

/-- Solver report for model 1b. -/
structure Out1b where
  status : ℤ
  σ : Sol1b
  objVal : ℚ
  duals : Duals1b

/-- `OptimizationModel1b._save_results`, fields in source insertion order. -/
def saveResults1b (p : Params1b) (o : Out1b) : Rec :=
  [(Key.objective, RVal.num o.objVal),
   (Key.import_cost, RVal.num (importCost1b p o.σ)),
   (Key.export_revenue, RVal.num (exportRev1b p o.σ)),
   (Key.discomfort_penalty, RVal.num (discomfort1b p o.σ)),
   (Key.net_profit,
     RVal.num (exportRev1b p o.σ - importCost1b p o.σ - discomfort1b p o.σ)),
   (Key.imp, RVal.tab o.σ.y),
   (Key.exp, RVal.tab o.σ.z),
   (Key.pv, RVal.tab o.σ.x),
   (Key.served, RVal.tab o.σ.served),
   (Key.deviation, RVal.tab o.σ.u),
   (Key.reference_load, RVal.tab p.ref_load),
   (Key.total_import, RVal.num (∑ h ∈ Finset.range p.H, o.σ.y h)),
   (Key.total_export, RVal.num (∑ h ∈ Finset.range p.H, o.σ.z h)),
   (Key.total_served, RVal.num (∑ h ∈ Finset.range p.H, o.σ.served h)),
   (Key.total_deviation, RVal.num (∑ h ∈ Finset.range p.H, o.σ.u h)),
   (Key.dual_pv_cap, RVal.tab o.duals.pvcap),
   (Key.dual_balance, RVal.tab o.duals.balance),
   (Key.dual_dev_pos, RVal.tab o.duals.dev_pos),
   (Key.dual_dev_neg, RVal.tab o.duals.dev_neg)]

/-- `OptimizationModel1b.run`. -/
def run1b (p : Params1b) (o : Out1b) : Rec :=
  (Key.status, RVal.int o.status) ::
    (if o.status = GRB_OPTIMAL then saveResults1b p o else [])

/-! ## Model 1c: flexible load + fixed battery (class `OptimizationModel1c`) -/

/-- The (already list-normalized) storage spec dict
(`appliance_params["storage"][0]`).  `…_frac` fields embed the source's
`…_ratio` entries. -/
structure Storage where
  storage_capacity_kWh : ℚ
  charging_efficiency : ℚ
  discharging_efficiency : ℚ
  max_charging_power_frac : ℚ       -- `max_charging_power_ratio`
  max_discharging_power_frac : ℚ    -- `max_discharging_power_ratio`
  battery_lifetime_yrs : ℚ
  battery_cost_per_kWh : ℚ

/-- The storage-preferences dict (`usage["storage_preferences"][0]`). -/
structure StoragePrefs where
  initial_soc_frac : ℚ              -- `initial_soc_ratio`
  final_soc_frac : ℚ                -- `final_soc_ratio`

/-- Parameters consumed by `OptimizationModel1c`.  A `tolerance` entry may be
present in the params dict (the 1c tolerance sweep inserts one); the builder
never reads it. -/
structure Params1c where
  H : ℕ
  pv : ℕ → ℚ
  b : ℕ → ℚ
  s : ℕ → ℚ
  GE : ℚ
  GI : ℚ
  ref_load : ℕ → ℚ
  d_hour : ℚ
  lam : ℚ
  storage : Storage
  storage_preferences : StoragePrefs
  tolerance : Option (ℕ → ℚ)

/-- `cap = storage["storage_capacity_kWh"]`. -/
def cap1c (p : Params1c) : ℚ := p.storage.storage_capacity_kWh

/-- `eta_c = storage["charging_efficiency"]`. -/
def etaC1c (p : Params1c) : ℚ := p.storage.charging_efficiency

/-- `eta_d = storage["discharging_efficiency"]`. -/
def etaD1c (p : Params1c) : ℚ := p.storage.discharging_efficiency

/-- `p_ch_max = max_charging_power_ratio * cap`. -/
def pChMax1c (p : Params1c) : ℚ := p.storage.max_charging_power_frac * cap1c p

/-- `p_dis_max = max_discharging_power_ratio * cap`. -/
def pDisMax1c (p : Params1c) : ℚ := p.storage.max_discharging_power_frac * cap1c p

/-- `soc_init = prefs["initial_soc_ratio"] * cap`. -/
def socInit1c (p : Params1c) : ℚ := p.storage_preferences.initial_soc_frac * cap1c p

/-- `soc_final = prefs["final_soc_ratio"] * cap`. -/
def socFinal1c (p : Params1c) : ℚ := p.storage_preferences.final_soc_frac * cap1c p

/-- Primal assignment to the decision variables of model 1c. -/
structure Sol1c where
  x : ℕ → ℚ
  y : ℕ → ℚ
  z : ℕ → ℚ
  served : ℕ → ℚ
  u : ℕ → ℚ
  l : ℕ → ℚ
  charge : ℕ → ℚ
  discharge : ℕ → ℚ
  soc : ℕ → ℚ

/-- The feasible set built by `OptimizationModel1c.build_model`: variable
bounds, `PVcap`, `Balance`, `Dev_pos`, `Dev_neg`, `SOC_init`, `SOC_dyn`,
`SOC_final`, in source order.  `max(hours) = H - 1`. -/
def Feasible1c (p : Params1c) (σ : Sol1c) : Prop :=
  (∀ h < p.H, 0 ≤ σ.x h) ∧ (∀ h < p.H, 0 ≤ σ.y h) ∧ (∀ h < p.H, 0 ≤ σ.z h) ∧
  (∀ h < p.H, 0 ≤ σ.served h ∧ σ.served h ≤ p.d_hour) ∧
  (∀ h < p.H, 0 ≤ σ.u h) ∧ (∀ h < p.H, 0 ≤ σ.l h) ∧
  (∀ h < p.H, 0 ≤ σ.charge h ∧ σ.charge h ≤ pChMax1c p) ∧
  (∀ h < p.H, 0 ≤ σ.discharge h ∧ σ.discharge h ≤ pDisMax1c p) ∧
  (∀ h < p.H, 0 ≤ σ.soc h ∧ σ.soc h ≤ cap1c p) ∧
  (∀ h < p.H, σ.x h ≤ p.pv h) ∧
  (∀ h < p.H,
    σ.served h = σ.x h + σ.y h + σ.discharge h - σ.z h - σ.charge h) ∧
  (∀ h < p.H, σ.u h ≥ σ.served h - p.ref_load h) ∧
  (∀ h < p.H, σ.u h ≥ p.ref_load h - σ.served h) ∧
  (σ.soc 0 =
    socInit1c p + etaC1c p * σ.charge 0 - (1 / etaD1c p) * σ.discharge 0) ∧
  (∀ h < p.H, 0 < h →
    σ.soc h =
      σ.soc (h - 1) + etaC1c p * σ.charge h - (1 / etaD1c p) * σ.discharge h) ∧
  (σ.soc (p.H - 1) = socFinal1c p)

/-- Objective set by `OptimizationModel1c.build_model` (maximized). -/
def objective1c (p : Params1c) (σ : Sol1c) : ℚ :=
  ∑ h ∈ Finset.range p.H,
    (σ.z h * (p.s h - p.GE) - σ.y h * (p.b h + p.GI) - p.lam * σ.u h)

/-- `import_cost` in `OptimizationModel1c._save_results`. -/
def importCost1c (p : Params1c) (σ : Sol1c) : ℚ :=
  ∑ h ∈ Finset.range p.H, σ.y h * (p.b h + p.GI)

/-- `export_rev` in `OptimizationModel1c._save_results`. -/
def exportRev1c (p : Params1c) (σ : Sol1c) : ℚ :=
  ∑ h ∈ Finset.range p.H, σ.z h * (p.s h - p.GE)

/-- `discomfort` in `OptimizationModel1c._save_results`. -/
def discomfort1c (p : Params1c) (σ : Sol1c) : ℚ :=
  ∑ h ∈ Finset.range p.H, p.lam * σ.u h

/-- Dual values for the named constraint families of 1c. -/
structure Duals1c where
  pvcap : ℕ → ℚ
  balance : ℕ → ℚ
  soc_dyn : ℕ → ℚ
  soc_init : ℚ
  soc_final : ℚ

/-- Solver report for model 1c. -/
structure Out1c where
  status : ℤ
  σ : Sol1c
  objVal : ℚ
  duals : Duals1c

/-- `OptimizationModel1c._save_results`, fields in source insertion order. -/
def saveResults1c (p : Params1c) (o : Out1c) : Rec :=
  [(Key.objective, RVal.num o.objVal),
   (Key.import_cost, RVal.num (importCost1c p o.σ)),
   (Key.export_revenue, RVal.num (exportRev1c p o.σ)),
   (Key.discomfort_penalty, RVal.num (discomfort1c p o.σ)),
   (Key.net_profit,
     RVal.num (exportRev1c p o.σ - importCost1c p o.σ - discomfort1c p o.σ)),
   (Key.imp, RVal.tab o.σ.y),
   (Key.exp, RVal.tab o.σ.z),
   (Key.pv, RVal.tab o.σ.x),
   (Key.served, RVal.tab o.σ.served),
   (Key.deviation, RVal.tab o.σ.u),
   (Key.reference_load, RVal.tab p.ref_load),
   (Key.charge, RVal.tab o.σ.charge),
   (Key.discharge, RVal.tab o.σ.discharge),
   (Key.soc, RVal.tab o.σ.soc),
   (Key.total_import, RVal.num (∑ h ∈ Finset.range p.H, o.σ.y h)),
   (Key.total_export, RVal.num (∑ h ∈ Finset.range p.H, o.σ.z h)),
   (Key.total_served, RVal.num (∑ h ∈ Finset.range p.H, o.σ.served h)),
   (Key.total_deviation, RVal.num (∑ h ∈ Finset.range p.H, o.σ.u h)),
   (Key.total_charge, RVal.num (∑ h ∈ Finset.range p.H, o.σ.charge h)),
   (Key.total_discharge, RVal.num (∑ h ∈ Finset.range p.H, o.σ.discharge h)),
   (Key.self_consumption,
     RVal.num (∑ h ∈ Finset.range p.H, min (o.σ.x h) (o.σ.served h))),
   (Key.dual_pv_cap, RVal.tab o.duals.pvcap),
   (Key.dual_balance, RVal.tab o.duals.balance),
   (Key.dual_soc_dyn, RVal.tab o.duals.soc_dyn),
   (Key.dual_soc_init, RVal.num o.duals.soc_init),
   (Key.dual_soc_final, RVal.num o.duals.soc_final)]

/-- `OptimizationModel1c.run`. -/
def run1c (p : Params1c) (o : Out1c) : Rec :=
  (Key.status, RVal.int o.status) ::
    (if o.status = GRB_OPTIMAL then saveResults1c p o else [])

/-- The model description handed to the solver for 1c: its feasible set and
its (maximized) objective, as assembled by `build_model`. -/
def build1c (p : Params1c) : (Sol1c → Prop) × (Sol1c → ℚ) :=
  (Feasible1c p, objective1c p)

/-! ## Model 2b: flexible load + sizable battery (class `OptimizationModel2b`) -/

/-- Parameters consumed by `OptimizationModel2b`. -/
structure Params2b where
  H : ℕ
  pv : ℕ → ℚ
  b : ℕ → ℚ
  s : ℕ → ℚ
  GE : ℚ
  GI : ℚ
  ref_load : ℕ → ℚ
  d_hour : ℚ
  lam : ℚ
  storage : Storage
  storage_preferences : StoragePrefs

/-- `cap = storage["storage_capacity_kWh"]`. -/
def cap2b (p : Params2b) : ℚ := p.storage.storage_capacity_kWh

/-- `eta_c`. -/
def etaC2b (p : Params2b) : ℚ := p.storage.charging_efficiency

/-- `eta_d`. -/
def etaD2b (p : Params2b) : ℚ := p.storage.discharging_efficiency

/-- `p_ch_max = max_charging_power_ratio * cap`. -/
def pChMax2b (p : Params2b) : ℚ := p.storage.max_charging_power_frac * cap2b p

/-- `p_dis_max = max_discharging_power_ratio * cap`. -/
def pDisMax2b (p : Params2b) : ℚ := p.storage.max_discharging_power_frac * cap2b p

/-- `soc_init = prefs["initial_soc_ratio"]` (a ratio in 2b, not scaled by
`cap` at read time). -/
def socInitFrac2b (p : Params2b) : ℚ := p.storage_preferences.initial_soc_frac

/-- `soc_final = prefs["final_soc_ratio"]`. -/
def socFinalFrac2b (p : Params2b) : ℚ := p.storage_preferences.final_soc_frac

/-- `T_max = storage["battery_lifetime_yrs"] * 365 * 24`. -/
def Tmax2b (p : Params2b) : ℚ := p.storage.battery_lifetime_yrs * 365 * 24

/-- `Bat_cost = storage["battery_cost_per_kWh"]`. -/
def batCost2b (p : Params2b) : ℚ := p.storage.battery_cost_per_kWh

/-- Primal assignment to the decision variables of model 2b.  `scale` is the
single investment variable `Bat_scale`; `cutoff` is the per-hour auxiliary
variable `Bat_cutoff`. -/
structure Sol2b where
  x : ℕ → ℚ
  y : ℕ → ℚ
  z : ℕ → ℚ
  served : ℕ → ℚ
  u : ℕ → ℚ
  l : ℕ → ℚ
  charge : ℕ → ℚ
  discharge : ℕ → ℚ
  soc : ℕ → ℚ
  scale : ℚ
  cutoff : ℕ → ℚ

/-- The feasible set built by `OptimizationModel2b.build_model`: variable
bounds (`charge`, `discharge`, `soc` carry no declared upper bound here;
`Bat_cutoff` is bounded `[0, 1]`), then `PVcap`, `Balance`, `Dev_pos`,
`Dev_neg`, `SOC_init`, `SOC_dyn`, `SOC_final`, `SOC_cap`, `Charge_cap`,
`Discharge_cap`, `Battery_turnoff`, in source order. -/
def Feasible2b (p : Params2b) (σ : Sol2b) : Prop :=
  (∀ h < p.H, 0 ≤ σ.x h) ∧ (∀ h < p.H, 0 ≤ σ.y h) ∧ (∀ h < p.H, 0 ≤ σ.z h) ∧
  (∀ h < p.H, 0 ≤ σ.served h ∧ σ.served h ≤ p.d_hour) ∧
  (∀ h < p.H, 0 ≤ σ.u h) ∧ (∀ h < p.H, 0 ≤ σ.l h) ∧
  (∀ h < p.H, 0 ≤ σ.charge h) ∧
  (∀ h < p.H, 0 ≤ σ.discharge h) ∧
  (∀ h < p.H, 0 ≤ σ.soc h) ∧
  (0 ≤ σ.scale) ∧
  (∀ h < p.H, 0 ≤ σ.cutoff h ∧ σ.cutoff h ≤ 1) ∧
  (∀ h < p.H, σ.x h ≤ p.pv h) ∧
  (∀ h < p.H,
    σ.served h = σ.x h + σ.y h + σ.discharge h - σ.z h - σ.charge h) ∧
  (∀ h < p.H, σ.u h ≥ σ.served h - p.ref_load h) ∧
  (∀ h < p.H, σ.u h ≥ p.ref_load h - σ.served h) ∧
  (σ.soc 0 = socInitFrac2b p * cap2b p * σ.scale
      + etaC2b p * σ.charge 0 - (1 / etaD2b p) * σ.discharge 0) ∧
  (∀ h < p.H, 0 < h →
    σ.soc h =
      σ.soc (h - 1) + etaC2b p * σ.charge h - (1 / etaD2b p) * σ.discharge h) ∧
  (σ.soc (p.H - 1) = socFinalFrac2b p * cap2b p * σ.scale) ∧
  (∀ h < p.H, σ.soc h ≤ cap2b p * σ.scale) ∧
  (∀ h < p.H, σ.charge h ≤ pChMax2b p * σ.scale) ∧
  (∀ h < p.H, σ.discharge h ≤ pDisMax2b p * σ.scale) ∧
  (∀ h < p.H, σ.cutoff h * (h : ℚ) ≤ Tmax2b p)

/-- Objective set by `OptimizationModel2b.build_model` (maximized):
operational surplus minus `Bat_cost * cap * Bat_scale`. -/
def objective2b (p : Params2b) (σ : Sol2b) : ℚ :=
  (∑ h ∈ Finset.range p.H,
    (σ.z h * (p.s h - p.GE) - σ.y h * (p.b h + p.GI) - p.lam * σ.u h))
  - batCost2b p * cap2b p * σ.scale

/-- `import_cost` in `OptimizationModel2b._save_results`. -/
def importCost2b (p : Params2b) (σ : Sol2b) : ℚ :=
  ∑ h ∈ Finset.range p.H, σ.y h * (p.b h + p.GI)

/-- `export_rev` in `OptimizationModel2b._save_results`. -/
def exportRev2b (p : Params2b) (σ : Sol2b) : ℚ :=
  ∑ h ∈ Finset.range p.H, σ.z h * (p.s h - p.GE)

/-- `discomfort` in `OptimizationModel2b._save_results`. -/
def discomfort2b (p : Params2b) (σ : Sol2b) : ℚ :=
  ∑ h ∈ Finset.range p.H, p.lam * σ.u h

/-- `battery_cost = battery_cost_per_kWh * storage_capacity_kWh * Bat_scale.X`
in `OptimizationModel2b._save_results`. -/
def batteryCost2b (p : Params2b) (σ : Sol2b) : ℚ :=
  batCost2b p * cap2b p * σ.scale

/-- Dual values for the named constraint families of 2b. -/
structure Duals2b where
  pvcap : ℕ → ℚ
  balance : ℕ → ℚ
  soc_dyn : ℕ → ℚ
  soc_init : ℚ
  soc_final : ℚ
  dev_pos : ℕ → ℚ
  dev_neg : ℕ → ℚ
  soc_cap : ℕ → ℚ
  charge_cap : ℕ → ℚ
  discharge_cap : ℕ → ℚ

/-- Solver report for model 2b. -/
structure Out2b where
  status : ℤ
  σ : Sol2b
  objVal : ℚ
  duals : Duals2b

/-- `OptimizationModel2b._save_results`, fields in source insertion order
(the duplicated `battery_scale` assignment collapses to one binding). -/
def saveResults2b (p : Params2b) (o : Out2b) : Rec :=
  [(Key.objective, RVal.num o.objVal),
   (Key.import_cost, RVal.num (importCost2b p o.σ)),
   (Key.export_revenue, RVal.num (exportRev2b p o.σ)),
   (Key.discomfort_penalty, RVal.num (discomfort2b p o.σ)),
   (Key.battery_cost, RVal.num (batteryCost2b p o.σ)),
   (Key.net_profit,
     RVal.num (exportRev2b p o.σ - importCost2b p o.σ - discomfort2b p o.σ
       - batteryCost2b p o.σ)),
   (Key.imp, RVal.tab o.σ.y),
   (Key.exp, RVal.tab o.σ.z),
   (Key.pv, RVal.tab o.σ.x),
   (Key.served, RVal.tab o.σ.served),
   (Key.deviation, RVal.tab o.σ.u),
   (Key.reference_load, RVal.tab p.ref_load),
   (Key.charge, RVal.tab o.σ.charge),
   (Key.discharge, RVal.tab o.σ.discharge),
   (Key.soc, RVal.tab o.σ.soc),
   (Key.battery_scale, RVal.num o.σ.scale),
   (Key.total_import, RVal.num (∑ h ∈ Finset.range p.H, o.σ.y h)),
   (Key.total_export, RVal.num (∑ h ∈ Finset.range p.H, o.σ.z h)),
   (Key.total_served, RVal.num (∑ h ∈ Finset.range p.H, o.σ.served h)),
   (Key.total_deviation, RVal.num (∑ h ∈ Finset.range p.H, o.σ.u h)),
   (Key.total_charge, RVal.num (∑ h ∈ Finset.range p.H, o.σ.charge h)),
   (Key.total_discharge, RVal.num (∑ h ∈ Finset.range p.H, o.σ.discharge h)),
   (Key.self_consumption,
     RVal.num (∑ h ∈ Finset.range p.H, min (o.σ.x h) (o.σ.served h))),
   (Key.dual_pv_cap, RVal.tab o.duals.pvcap),
   (Key.dual_balance, RVal.tab o.duals.balance),
   (Key.dual_soc_dyn, RVal.tab o.duals.soc_dyn),
   (Key.dual_soc_init, RVal.num o.duals.soc_init),
   (Key.dual_soc_final, RVal.num o.duals.soc_final),
   (Key.dual_dev_pos, RVal.tab o.duals.dev_pos),
   (Key.dual_dev_neg, RVal.tab o.duals.dev_neg),
   (Key.dual_soc_cap, RVal.tab o.duals.soc_cap),
   (Key.dual_charge_cap, RVal.tab o.duals.charge_cap),
   (Key.dual_discharge_cap, RVal.tab o.duals.discharge_cap)]

/-- `OptimizationModel2b.run`. -/
def run2b (p : Params2b) (o : Out2b) : Rec :=
  (Key.status, RVal.int o.status) ::
    (if o.status = GRB_OPTIMAL then saveResults2b p o else [])

/-! ## Sweep harness (`src/runner/runner.py`) -/

/-- Python's `round(q, 2)` (banker's rounding to two decimals), on exact
rationals.  The float values swept in the claims (multiples of `1/2`) are
binary-exact, so the float and rational computations coincide there. -/
def pyRound2 (q : ℚ) : ℚ :=
  let x : ℚ := q * 100
  let n : ℤ :=
    if x - ⌊x⌋ = 1 / 2 then (if 2 ∣ ⌊x⌋ then ⌊x⌋ else ⌊x⌋ + 1) else round x
  (n : ℚ) / 100

/-- The `while ge <= stop + 1e-9: … ; ge += step` loop of
`run_export_tariff_sweep`, collecting the visited `ge` values in iteration
order.  The loop only terminates for positive `step`, recorded as the
hypothesis `hstep`. -/
def sweepGEList (stop step : ℚ) (hstep : 0 < step) (ge : ℚ) : List ℚ :=
  if _h : ge ≤ stop + 1 / 1000000000 then
    ge :: sweepGEList stop step hstep (ge + step)
  else []
termination_by (⌊(stop + 1 / 1000000000 - ge) / step⌋ + 1).toNat
decreasing_by
  have hs : step ≠ 0 := ne_of_gt hstep
  have hq : (0 : ℚ) ≤ (stop + 1 / 1000000000 - ge) / step :=
    div_nonneg (by linarith) (le_of_lt hstep)
  have hfl : (0 : ℤ) ≤ ⌊(stop + 1 / 1000000000 - ge) / step⌋ :=
    Int.floor_nonneg.mpr hq
  have harg : (stop + 1 / 1000000000 - (ge + step)) / step
      = (stop + 1 / 1000000000 - ge) / step - 1 := by
    field_simp
    ring
  rw [harg, Int.floor_sub_one]
  omega

/-- `run_export_tariff_sweep`: for each visited `ge`, build the 1a params
(loader-derived data in `base`, `GE` overridden), run the model, copy the
results and tag them with `res["GE"] = round(ge, 2)`.  The solver is the
abstract external collaborator. -/
def runExportTariffSweep (solver : Params1a → Out1a) (base : Params1a)
    (start stop step : ℚ) (hstep : 0 < step) : List Rec :=
  (sweepGEList stop step hstep start).map (fun ge =>
    let p : Params1a := { base with GE := ge }
    setKey Key.tag_GE (RVal.num (pyRound2 ge)) (run1a p (solver p)))

/-- `numpy.linspace a b n`: `n` evenly spaced points from `a` to `b`
inclusive. -/
def linspace (a b : ℚ) (n : ℕ) : List ℚ :=
  if n ≤ 1 then (List.range n).map (fun _ => a)
  else (List.range n).map (fun i => a + (b - a) * i / (n - 1))

/-- `sweep_battery_cost`: the loop body executes
`storage[0]["battery_cost_per_kWh"] = cost` on the storage-spec dict loaded
once before the loop (no copy is taken), builds params referencing that same
dict, solves, and tags the copied results with the swept cost.  The shared
dict is embedded as threaded state; the second component of the result is the
loader's storage object as it stands after the sweep. -/
def sweepBatteryCost (solver : Params2b → Out2b) (base : Params2b)
    (costs : List ℚ) : List Rec × Storage :=
  costs.foldl
    (fun acc c =>
      let st : Storage := { acc.2 with battery_cost_per_kWh := c }
      let p : Params2b := { base with storage := st }
      (acc.1 ++ [setKey Key.tag_battery_cost (RVal.num c) (run2b p (solver p))],
       st))
    ([], base.storage)

/-- The params dict assembled by `sweep_tolerance_1c`: loader-derived data in
`base`, plus the entry `"tolerance" = {i: tolerance_ratio * ref_load[i]}`. -/
def mkParamsTol1c (base : Params1c) (t : ℚ) : Params1c :=
  { base with tolerance := some (fun i => t * base.ref_load i) }

/-- `sweep_tolerance_1c`: assemble the params (including the tolerance
profile), build and solve model 1c, copy the results and tag them with
`res["tolerance_ratio"] = tolerance_ratio`.  The solver consumes exactly the
built model description (feasible set and objective). -/
def sweepTolerance1c (solver : (Sol1c → Prop) × (Sol1c → ℚ) → Out1c)
    (base : Params1c) (t : ℚ) : Rec :=
  setKey Key.tag_tol (RVal.num t)
    (run1c (mkParamsTol1c base t) (solver (build1c (mkParamsTol1c base t))))

/-! ## Claim theorems -/

/-- **C1**: in the battery-augmented model 1c, every assignment admitted by
the built model (hence every optimal primal solution) satisfies the SOC
recursion `soc[0] = soc_init + eta_c*charge[0] - discharge[0]/eta_d`,
`soc[h] = soc[h-1] + eta_c*charge[h] - discharge[h]/eta_d` for `0 < h < H`,
the terminal pin `soc[H-1] = soc_final`, the recursion closure
`soc[h] - soc[h-1] - eta_c*charge[h] + discharge[h]/eta_d = 0`, and
`soc_init`/`soc_final` are the configured initial/final SOC ratios times the
capacity. -/
theorem soc_recursion_1c (p : Params1c) (σ : Sol1c) (_hH : 1 ≤ p.H)
    (hfeas : Feasible1c p σ) :
    σ.soc 0 = socInit1c p + etaC1c p * σ.charge 0 - σ.discharge 0 / etaD1c p ∧
    (∀ h, 0 < h → h < p.H →
      σ.soc h = σ.soc (h - 1) + etaC1c p * σ.charge h
        - σ.discharge h / etaD1c p) ∧
    σ.soc (p.H - 1) = socFinal1c p ∧
    socInit1c p = p.storage_preferences.initial_soc_frac * cap1c p ∧
    socFinal1c p = p.storage_preferences.final_soc_frac * cap1c p ∧
    (∀ h, 0 < h → h < p.H →
      σ.soc h - σ.soc (h - 1) - etaC1c p * σ.charge h
        + σ.discharge h / etaD1c p = 0) := by
  obtain ⟨-, -, -, -, -, -, -, -, -, -, -, -, -, hinit, hdyn, hfin⟩ := hfeas
  refine ⟨?_, ?_, hfin, rfl, rfl, ?_⟩
  · rw [hinit]; ring
  · intro h h0 hup
    rw [hdyn h hup h0]; ring
  · intro h h0 hup
    rw [hdyn h hup h0]; ring

/-- Concrete 1c parameter set used by witnesses: one hour, a 2 kWh battery at
50% initial and final SOC, unit efficiencies. -/
def p1cW : Params1c :=
  { H := 1, pv := fun _ => 0, b := fun _ => 0, s := fun _ => 0, GE := 0,
    GI := 0, ref_load := fun _ => 0, d_hour := 0, lam := 0,
    storage :=
      { storage_capacity_kWh := 2, charging_efficiency := 1,
        discharging_efficiency := 1, max_charging_power_frac := 1,
        max_discharging_power_frac := 1, battery_lifetime_yrs := 10,
        battery_cost_per_kWh := 150 },
    storage_preferences := { initial_soc_frac := 1/2, final_soc_frac := 1/2 },
    tolerance := none }

/-- Concrete feasible point of the 1c model built from `p1cW`. -/
def sol1cW : Sol1c :=
  { x := fun _ => 0, y := fun _ => 0, z := fun _ => 0, served := fun _ => 0,
    u := fun _ => 0, l := fun _ => 0, charge := fun _ => 0,
    discharge := fun _ => 0, soc := fun _ => 1 }

theorem feasible_p1cW : Feasible1c p1cW sol1cW := by
  unfold Feasible1c pChMax1c pDisMax1c cap1c etaC1c etaD1c socInit1c socFinal1c
  refine ⟨?_, ?_, ?_, ?_, ?_, ?_, ?_, ?_, ?_, ?_, ?_, ?_, ?_, ?_, ?_, ?_⟩ <;>
    first
      | decide
      | (intro h hh; interval_cases h)
      | norm_num [p1cW, sol1cW, cap1c]

theorem soc_recursion_1c_witness :
    1 ≤ p1cW.H ∧ Feasible1c p1cW sol1cW ∧
      sol1cW.soc (p1cW.H - 1) = socFinal1c p1cW :=
  ⟨le_refl 1, feasible_p1cW,
    (soc_recursion_1c p1cW sol1cW (le_refl 1) feasible_p1cW).2.2.1⟩

/-- **C5**: every assignment admitted by the base model 1a (hence every
optimal primal solution) satisfies the per-hour no-arbitrage guard
`x[h] - z[h] >= 0`, the PV cap `x[h] <= pv[h]`, and the single daily-demand
constraint `sum_h (x[h] + y[h] - z[h]) >= D`. -/
theorem base_constraints_1a (p : Params1a) (σ : Sol1a)
    (hfeas : Feasible1a p σ) :
    (∀ h < p.H, σ.x h - σ.z h ≥ 0) ∧
    (∀ h < p.H, σ.x h ≤ p.pv h) ∧
    (∑ h ∈ Finset.range p.H, (σ.x h + σ.y h - σ.z h)) ≥ p.D := by
  obtain ⟨-, -, -, hpv, hD, hguard, -, -⟩ := hfeas
  exact ⟨hguard, hpv, hD⟩

/-- Concrete 1a parameter set used by witnesses. -/
def p1aW : Params1a :=
  { H := 2, pv := fun _ => 1, b := fun _ => 1, s := fun _ => 1, GE := 1/10,
    GI := 1/10, D := 0 }

/-- Concrete feasible point of the 1a model built from `p1aW`. -/
def sol1aW : Sol1a := { x := fun _ => 1, y := fun _ => 0, z := fun _ => 1 }

theorem feasible_p1aW : Feasible1a p1aW sol1aW := by
  unfold Feasible1a
  refine ⟨?_, ?_, ?_, ?_, ?_, ?_, ?_, ?_⟩ <;>
    first
      | decide
      | norm_num [p1aW, sol1aW, Finset.sum_range_succ]

theorem base_constraints_1a_witness :
    Feasible1a p1aW sol1aW ∧
      (∑ h ∈ Finset.range p1aW.H,
        (sol1aW.x h + sol1aW.y h - sol1aW.z h)) ≥ p1aW.D :=
  ⟨feasible_p1aW, (base_constraints_1a p1aW sol1aW feasible_p1aW).2.2⟩

/-- **C2**: in the battery-sizing model 2b, every assignment admitted by the
built model satisfies the scale-proportional SOC/charge/discharge bounds and
initial/final SOC targets, and the built objective equals the operational
surplus minus `unit_cost * cap * scale`. -/
theorem scaling_2b (p : Params2b) (σ : Sol2b) (hfeas : Feasible2b p σ) :
    (0 ≤ σ.scale) ∧
    (∀ h < p.H, σ.soc h ≤ cap2b p * σ.scale) ∧
    (∀ h < p.H, σ.charge h ≤ pChMax2b p * σ.scale) ∧
    (∀ h < p.H, σ.discharge h ≤ pDisMax2b p * σ.scale) ∧
    (σ.soc 0 = socInitFrac2b p * cap2b p * σ.scale
      + etaC2b p * σ.charge 0 - σ.discharge 0 / etaD2b p) ∧
    (σ.soc (p.H - 1) = socFinalFrac2b p * cap2b p * σ.scale) ∧
    objective2b p σ =
      (∑ h ∈ Finset.range p.H,
        (σ.z h * (p.s h - p.GE) - σ.y h * (p.b h + p.GI) - p.lam * σ.u h))
      - batCost2b p * cap2b p * σ.scale := by
  obtain ⟨-, -, -, -, -, -, -, -, -, hscale, -, -, -, -, -,
    hinit, -, hfin, hsoccap, hchcap, hdiscap, -⟩ := hfeas
  refine ⟨hscale, hsoccap, hchcap, hdiscap, ?_, hfin, rfl⟩
  rw [hinit]; ring

/-- Concrete 2b parameter set used by witnesses. -/
def p2bW : Params2b :=
  { H := 1, pv := fun _ => 0, b := fun _ => 0, s := fun _ => 0, GE := 0,
    GI := 0, ref_load := fun _ => 0, d_hour := 0, lam := 0,
    storage :=
      { storage_capacity_kWh := 2, charging_efficiency := 1,
        discharging_efficiency := 1, max_charging_power_frac := 1,
        max_discharging_power_frac := 1, battery_lifetime_yrs := 10,
        battery_cost_per_kWh := 150 },
    storage_preferences := { initial_soc_frac := 0, final_soc_frac := 0 } }

/-- Concrete feasible point of the 2b model built from `p2bW` (no battery
installed: `Bat_scale = 0`). -/
def sol2bW : Sol2b :=
  { x := fun _ => 0, y := fun _ => 0, z := fun _ => 0, served := fun _ => 0,
    u := fun _ => 0, l := fun _ => 0, charge := fun _ => 0,
    discharge := fun _ => 0, soc := fun _ => 0, scale := 0,
    cutoff := fun _ => 0 }

theorem feasible_p2bW : Feasible2b p2bW sol2bW := by
  unfold Feasible2b pChMax2b pDisMax2b cap2b etaC2b etaD2b socInitFrac2b
    socFinalFrac2b Tmax2b
  refine ⟨?_, ?_, ?_, ?_, ?_, ?_, ?_, ?_, ?_, ?_, ?_, ?_, ?_, ?_, ?_, ?_, ?_,
    ?_, ?_, ?_, ?_, ?_⟩ <;>
    first
      | decide
      | norm_num [p2bW, sol2bW]

theorem scaling_2b_witness :
    Feasible2b p2bW sol2bW ∧
      sol2bW.soc (p2bW.H - 1) = socFinalFrac2b p2bW * cap2b p2bW * sol2bW.scale :=
  ⟨feasible_p2bW, (scaling_2b p2bW sol2bW feasible_p2bW).2.2.2.2.2.1⟩

/-- **C6**: when the `"tolerance"` key is absent from a 1b parameter set, the
per-hour tolerance defaults to zero, the deviation constraints of every
admitted assignment reduce to `u[h] >= served[h] - ref_load[h]` and
`u[h] >= ref_load[h] - served[h]`, and the built model (feasible set and
objective) is identical to the one built from an explicit all-zero tolerance
profile. -/
theorem tolerance_default_1b (p : Params1b) (hnone : p.tolerance = none) :
    tol1b p = (fun _ => 0) ∧
    Feasible1b p = Feasible1b { p with tolerance := some (fun _ => 0) } ∧
    objective1b p = objective1b { p with tolerance := some (fun _ => 0) } ∧
    (∀ σ : Sol1b, Feasible1b p σ → ∀ h < p.H,
      σ.u h ≥ σ.served h - p.ref_load h ∧
      σ.u h ≥ p.ref_load h - σ.served h) := by
  have htol : tol1b p = (fun _ => 0) := by
    rw [tol1b, hnone]
    rfl
  have htol' : tol1b { p with tolerance := some (fun _ => 0) } =
      (fun _ => 0) := rfl
  refine ⟨htol, ?_, rfl, ?_⟩
  · funext σ
    unfold Feasible1b
    rw [htol, htol']
  · intro σ hfeas h hh
    obtain ⟨-, -, -, -, -, -, -, -, hpos, hneg⟩ := hfeas
    have h1 := hpos h hh
    have h2 := hneg h hh
    rw [htol] at h1 h2
    simp only at h1 h2
    exact ⟨by linarith, by linarith⟩

/-- Concrete 1b parameter set without a `"tolerance"` entry, used by the C6
witness. -/
def p1bW : Params1b :=
  { H := 1, pv := fun _ => 0, b := fun _ => 0, s := fun _ => 0, GE := 0,
    GI := 0, ref_load := fun _ => 0, d_hour := 0, lam := 1,
    tolerance := none }

theorem tolerance_default_1b_witness :
    p1bW.tolerance = none ∧ tol1b p1bW = (fun _ => 0) ∧
      Feasible1b p1bW =
        Feasible1b { p1bW with tolerance := some (fun _ => 0) } :=
  ⟨rfl, (tolerance_default_1b p1bW rfl).1, (tolerance_default_1b p1bW rfl).2.1⟩

theorem objective1a_decomp (p : Params1a) (σ : Sol1a) :
    objective1a p σ = exportRev1a p σ - importCost1a p σ := by
  simp [objective1a, exportRev1a, importCost1a, Finset.sum_sub_distrib]

theorem objective1b_decomp (p : Params1b) (σ : Sol1b) :
    objective1b p σ = exportRev1b p σ - importCost1b p σ - discomfort1b p σ := by
  simp [objective1b, exportRev1b, importCost1b, discomfort1b,
    Finset.sum_sub_distrib]

theorem objective1c_decomp (p : Params1c) (σ : Sol1c) :
    objective1c p σ = exportRev1c p σ - importCost1c p σ - discomfort1c p σ := by
  simp [objective1c, exportRev1c, importCost1c, discomfort1c,
    Finset.sum_sub_distrib]

theorem objective2b_decomp (p : Params2b) (σ : Sol2b) :
    objective2b p σ = exportRev2b p σ - importCost2b p σ - discomfort2b p σ
      - batteryCost2b p σ := by
  have : (∑ h ∈ Finset.range p.H,
      (σ.z h * (p.s h - p.GE) - σ.y h * (p.b h + p.GI) - p.lam * σ.u h))
      = exportRev2b p σ - importCost2b p σ - discomfort2b p σ := by
    simp [exportRev2b, importCost2b, discomfort2b, Finset.sum_sub_distrib]
  rw [objective2b, this, batteryCost2b]

/-- **C3**: for every scenario model, the populated result record stores the
solver objective under `"objective"` and the decomposition terms computed
from the primal values; provided the solver-reported objective agrees with
the built objective at its reported primal point to within `1e-6` (the
solver-precision contract), the record satisfies
`objective = export_revenue - import_cost - discomfort_penalty -
battery_cost` within `1e-6` absolute, where the discomfort term is `0` for
1a and the battery term is `0` for 1a/1b/1c. -/
theorem objective_decomposition
    (p1 : Params1a) (o1 : Out1a) (p2 : Params1b) (o2 : Out1b)
    (p3 : Params1c) (o3 : Out1c) (p4 : Params2b) (o4 : Out2b)
    (h1 : |o1.objVal - objective1a p1 o1.σ| ≤ 1/1000000)
    (h2 : |o2.objVal - objective1b p2 o2.σ| ≤ 1/1000000)
    (h3 : |o3.objVal - objective1c p3 o3.σ| ≤ 1/1000000)
    (h4 : |o4.objVal - objective2b p4 o4.σ| ≤ 1/1000000) :
    (rlookup Key.objective (saveResults1a p1 o1) = some (RVal.num o1.objVal) ∧
     rlookup Key.export_revenue (saveResults1a p1 o1)
       = some (RVal.num (exportRev1a p1 o1.σ)) ∧
     rlookup Key.import_cost (saveResults1a p1 o1)
       = some (RVal.num (importCost1a p1 o1.σ)) ∧
     |o1.objVal - (exportRev1a p1 o1.σ - importCost1a p1 o1.σ - 0 - 0)|
       ≤ 1/1000000) ∧
    (rlookup Key.objective (saveResults1b p2 o2) = some (RVal.num o2.objVal) ∧
     rlookup Key.discomfort_penalty (saveResults1b p2 o2)
       = some (RVal.num (discomfort1b p2 o2.σ)) ∧
     |o2.objVal - (exportRev1b p2 o2.σ - importCost1b p2 o2.σ
       - discomfort1b p2 o2.σ - 0)| ≤ 1/1000000) ∧
    (rlookup Key.objective (saveResults1c p3 o3) = some (RVal.num o3.objVal) ∧
     |o3.objVal - (exportRev1c p3 o3.σ - importCost1c p3 o3.σ
       - discomfort1c p3 o3.σ - 0)| ≤ 1/1000000) ∧
    (rlookup Key.objective (saveResults2b p4 o4) = some (RVal.num o4.objVal) ∧
     rlookup Key.battery_cost (saveResults2b p4 o4)
       = some (RVal.num (batteryCost2b p4 o4.σ)) ∧
     |o4.objVal - (exportRev2b p4 o4.σ - importCost2b p4 o4.σ
       - discomfort2b p4 o4.σ - batteryCost2b p4 o4.σ)| ≤ 1/1000000) := by
  rw [objective1a_decomp] at h1
  rw [objective1b_decomp] at h2
  rw [objective1c_decomp] at h3
  rw [objective2b_decomp] at h4
  refine ⟨⟨?_, ?_, ?_, by simpa using h1⟩, ⟨?_, ?_, by simpa using h2⟩,
    ⟨?_, by simpa using h3⟩, ⟨?_, ?_, by simpa using h4⟩⟩ <;>
      simp [saveResults1a, saveResults1b, saveResults1c, saveResults2b,
        rlookup]

/-- Zero dual block for model 1a, used by witnesses. -/
def duals1aW : Duals1a := { daily := 0, hourly := fun _ => 0, pvcap := fun _ => 0 }

/-- A non-optimal (infeasible, code 3) solver report for 1a at `sol1aW`. -/
def out1aInf : Out1a := { status := 3, σ := sol1aW, objVal := 0, duals := duals1aW }

/-- An optimal (code 2) solver report for 1a at `sol1aW`, with the exact
objective value. -/
def out1aOpt : Out1a :=
  { status := 2, σ := sol1aW, objVal := objective1a p1aW sol1aW, duals := duals1aW }

/-- Zero point and duals for model 1b, used by witnesses. -/
def sol1bW : Sol1b :=
  { x := fun _ => 0, y := fun _ => 0, z := fun _ => 0, served := fun _ => 0,
    u := fun _ => 0, l := fun _ => 0 }

def duals1bW : Duals1b :=
  { pvcap := fun _ => 0, balance := fun _ => 0, dev_pos := fun _ => 0,
    dev_neg := fun _ => 0 }

def out1bInf : Out1b := { status := 3, σ := sol1bW, objVal := 0, duals := duals1bW }

def duals1cW : Duals1c :=
  { pvcap := fun _ => 0, balance := fun _ => 0, soc_dyn := fun _ => 0,
    soc_init := 0, soc_final := 0 }

def out1cInf : Out1c := { status := 3, σ := sol1cW, objVal := 0, duals := duals1cW }

def duals2bW : Duals2b :=
  { pvcap := fun _ => 0, balance := fun _ => 0, soc_dyn := fun _ => 0,
    soc_init := 0, soc_final := 0, dev_pos := fun _ => 0,
    dev_neg := fun _ => 0, soc_cap := fun _ => 0, charge_cap := fun _ => 0,
    discharge_cap := fun _ => 0 }

def out2bInf : Out2b := { status := 3, σ := sol2bW, objVal := 0, duals := duals2bW }

theorem objective_decomposition_witness :
    |out1aOpt.objVal - objective1a p1aW out1aOpt.σ| ≤ 1/1000000 ∧
    rlookup Key.objective (saveResults1a p1aW out1aOpt)
      = some (RVal.num out1aOpt.objVal) ∧
    |out1aOpt.objVal
      - (exportRev1a p1aW out1aOpt.σ - importCost1a p1aW out1aOpt.σ - 0 - 0)|
      ≤ 1/1000000 := by
  have h1 : |out1aOpt.objVal - objective1a p1aW out1aOpt.σ| ≤ 1/1000000 := by
    simp [out1aOpt]
  have h0 : |(0:ℚ) - objective1b p1bW sol1bW| ≤ 1/1000000 := by
    simp [objective1b, p1bW, sol1bW]
  have h0c : |(0:ℚ) - objective1c p1cW sol1cW| ≤ 1/1000000 := by
    simp [objective1c, p1cW, sol1cW]
  have h0d : |(0:ℚ) - objective2b p2bW sol2bW| ≤ 1/1000000 := by
    simp [objective2b, batCost2b, p2bW, sol2bW]
  have main := objective_decomposition p1aW out1aOpt p1bW
    { status := 2, σ := sol1bW, objVal := 0, duals := duals1bW } p1cW
    { status := 2, σ := sol1cW, objVal := 0, duals := duals1cW } p2bW
    { status := 2, σ := sol2bW, objVal := 0, duals := duals2bW }
    h1 h0 h0c h0d
  exact ⟨h1, main.1.1, main.1.2.2.2⟩

/-- **C4**: for every model variant, `run` (a total function — non-optimal
statuses propagate as data, not as a thrown fault) stores the solver status
code under `"status"`; on a non-optimal status the result record is exactly
the singleton `{"status": code}` — no primal, dual, objective or total field
is present — and on an optimal status the primal, dual and objective fields
are extracted. -/
theorem run_status_handling
    (p1 : Params1a) (o1 : Out1a) (p2 : Params1b) (o2 : Out1b)
    (p3 : Params1c) (o3 : Out1c) (p4 : Params2b) (o4 : Out2b) :
    (rlookup Key.status (run1a p1 o1) = some (RVal.int o1.status) ∧
     (o1.status ≠ GRB_OPTIMAL →
       run1a p1 o1 = [(Key.status, RVal.int o1.status)] ∧
       ∀ k, k ≠ Key.status → rlookup k (run1a p1 o1) = none) ∧
     (o1.status = GRB_OPTIMAL →
       (rlookup Key.objective (run1a p1 o1)).isSome ∧
       (rlookup Key.imp (run1a p1 o1)).isSome ∧
       (rlookup Key.dual_pv_cap (run1a p1 o1)).isSome)) ∧
    (rlookup Key.status (run1b p2 o2) = some (RVal.int o2.status) ∧
     (o2.status ≠ GRB_OPTIMAL →
       run1b p2 o2 = [(Key.status, RVal.int o2.status)] ∧
       ∀ k, k ≠ Key.status → rlookup k (run1b p2 o2) = none) ∧
     (o2.status = GRB_OPTIMAL →
       (rlookup Key.objective (run1b p2 o2)).isSome ∧
       (rlookup Key.imp (run1b p2 o2)).isSome ∧
       (rlookup Key.dual_balance (run1b p2 o2)).isSome)) ∧
    (rlookup Key.status (run1c p3 o3) = some (RVal.int o3.status) ∧
     (o3.status ≠ GRB_OPTIMAL →
       run1c p3 o3 = [(Key.status, RVal.int o3.status)] ∧
       ∀ k, k ≠ Key.status → rlookup k (run1c p3 o3) = none) ∧
     (o3.status = GRB_OPTIMAL →
       (rlookup Key.objective (run1c p3 o3)).isSome ∧
       (rlookup Key.soc (run1c p3 o3)).isSome ∧
       (rlookup Key.dual_soc_final (run1c p3 o3)).isSome)) ∧
    (rlookup Key.status (run2b p4 o4) = some (RVal.int o4.status) ∧
     (o4.status ≠ GRB_OPTIMAL →
       run2b p4 o4 = [(Key.status, RVal.int o4.status)] ∧
       ∀ k, k ≠ Key.status → rlookup k (run2b p4 o4) = none) ∧
     (o4.status = GRB_OPTIMAL →
       (rlookup Key.objective (run2b p4 o4)).isSome ∧
       (rlookup Key.battery_scale (run2b p4 o4)).isSome ∧
       (rlookup Key.dual_discharge_cap (run2b p4 o4)).isSome)) := by
  refine ⟨⟨?_, ?_, ?_⟩, ⟨?_, ?_, ?_⟩, ⟨?_, ?_, ?_⟩, ⟨?_, ?_, ?_⟩⟩
  · simp [run1a, rlookup]
  · intro h
    refine ⟨by simp [run1a, h], ?_⟩
    intro k hk
    simp [run1a, h, rlookup, hk]
  · intro h
    refine ⟨?_, ?_, ?_⟩ <;> simp [run1a, h, saveResults1a, rlookup]
  · simp [run1b, rlookup]
  · intro h
    refine ⟨by simp [run1b, h], ?_⟩
    intro k hk
    simp [run1b, h, rlookup, hk]
  · intro h
    refine ⟨?_, ?_, ?_⟩ <;> simp [run1b, h, saveResults1b, rlookup]
  · simp [run1c, rlookup]
  · intro h
    refine ⟨by simp [run1c, h], ?_⟩
    intro k hk
    simp [run1c, h, rlookup, hk]
  · intro h
    refine ⟨?_, ?_, ?_⟩ <;> simp [run1c, h, saveResults1c, rlookup]
  · simp [run2b, rlookup]
  · intro h
    refine ⟨by simp [run2b, h], ?_⟩
    intro k hk
    simp [run2b, h, rlookup, hk]
  · intro h
    refine ⟨?_, ?_, ?_⟩ <;> simp [run2b, h, saveResults2b, rlookup]

theorem run_status_handling_witness :
    rlookup Key.status (run1a p1aW out1aInf) = some (RVal.int 3) ∧
    run1a p1aW out1aInf = [(Key.status, RVal.int 3)] ∧
    rlookup Key.objective (run1b p1bW out1bInf) = none ∧
    run1c p1cW out1cInf = [(Key.status, RVal.int 3)] ∧
    run2b p2bW out2bInf = [(Key.status, RVal.int 3)] ∧
    (rlookup Key.objective (run1a p1aW out1aOpt)).isSome := by
  have h3 : (3 : ℤ) ≠ GRB_OPTIMAL := by decide
  have main := run_status_handling p1aW out1aInf p1bW out1bInf p1cW out1cInf
    p2bW out2bInf
  have mainOpt := run_status_handling p1aW out1aOpt p1bW out1bInf p1cW
    out1cInf p2bW out2bInf
  refine ⟨main.1.1, (main.1.2.1 h3).1, ?_, (main.2.2.1.2.1 h3).1,
    (main.2.2.2.2.1 h3).1, (mainOpt.1.2.2 rfl).1⟩
  exact (main.2.1.2.1 h3).2 Key.objective (by decide)

/-- 2b parameter set whose horizon (2 hours) extends past the lifetime-hours
threshold: `battery_lifetime_yrs = 0`, so `T_max = 0 < 1`. -/
def p2bCut : Params2b :=
  { H := 2, pv := fun _ => 0, b := fun _ => 0, s := fun _ => 0, GE := 0,
    GI := 0, ref_load := fun _ => 0, d_hour := 0, lam := 0,
    storage :=
      { storage_capacity_kWh := 1, charging_efficiency := 1,
        discharging_efficiency := 1, max_charging_power_frac := 1,
        max_discharging_power_frac := 1, battery_lifetime_yrs := 0,
        battery_cost_per_kWh := 150 },
    storage_preferences := { initial_soc_frac := 0, final_soc_frac := 0 } }

/-- A point of the 2b model built from `p2bCut` that charges and discharges
at full rated power at hour `1 > T_max = 0` (with `Bat_cutoff ≡ 0`). -/
def sol2bCut : Sol2b :=
  { x := fun _ => 0, y := fun _ => 0, z := fun _ => 0, served := fun _ => 0,
    u := fun _ => 0, l := fun _ => 0,
    charge := fun h => if h = 1 then 1 else 0,
    discharge := fun h => if h = 1 then 1 else 0,
    soc := fun _ => 0, scale := 1, cutoff := fun _ => 0 }

theorem feasible_p2bCut : Feasible2b p2bCut sol2bCut := by
  unfold Feasible2b pChMax2b pDisMax2b cap2b etaC2b etaD2b socInitFrac2b
    socFinalFrac2b Tmax2b
  refine ⟨?_, ?_, ?_, ?_, ?_, ?_, ?_, ?_, ?_, ?_, ?_, ?_, ?_, ?_, ?_, ?_, ?_,
    ?_, ?_, ?_, ?_, ?_⟩ <;>
    first
      | decide
      | (intro h hh
         norm_num [p2bCut] at hh
         interval_cases h <;> norm_num [p2bCut, sol2bCut])
      | norm_num [p2bCut, sol2bCut]

/-- **C7** (the code contradicts its own `Battery turnoff` comment): in the
model built by `OptimizationModel2b` from `p2bCut`, whose 2-hour horizon
extends past the lifetime threshold `T_max = 0`, the assignment `sol2bCut`
charging and discharging at full rated power at hour `1 > T_max` is
admitted, and the objective is invariant under the `Bat_cutoff` values: the
`Bat_cutoff[h]*h <= T_max` constraint restricts only the isolated auxiliary
variable `Bat_cutoff`, never the charge/discharge/SOC dispatch. -/
theorem cutoff_unlinked_demo :
    Tmax2b p2bCut = 0 ∧
    Feasible2b p2bCut sol2bCut ∧
    sol2bCut.charge 1 = pChMax2b p2bCut * sol2bCut.scale ∧
    sol2bCut.discharge 1 = pDisMax2b p2bCut * sol2bCut.scale ∧
    objective2b p2bCut { sol2bCut with cutoff := fun _ => 1 }
      = objective2b p2bCut sol2bCut := by
  refine ⟨?_, feasible_p2bCut, ?_, ?_, rfl⟩ <;>
    norm_num [Tmax2b, pChMax2b, pDisMax2b, cap2b, p2bCut, sol2bCut]

/-- **C8** (code bug, recorded in the spec's design notes): the battery-cost
sweep, applied to the loaded storage spec and the 2-point cost grid
`linspace(0.12, 1, 2)`, leaves the loader's storage object holding the LAST
swept cost (`1`), not its loaded value: the loop writes
`storage[0]["battery_cost_per_kWh"] = cost` on the shared dict in place and
never deep-copies. -/
theorem battery_cost_sweep_mutates (solver : Params2b → Out2b)
    (base : Params2b) :
    linspace (12/100) 1 2 = [12/100, 1] ∧
    (sweepBatteryCost solver base (linspace (12/100) 1 2)).2
      = { base.storage with battery_cost_per_kWh := 1 } ∧
    (base.storage.battery_cost_per_kWh = 150 →
      (sweepBatteryCost solver base (linspace (12/100) 1 2)).2
        ≠ base.storage) := by
  have hl : linspace (12/100) 1 2 = [12/100, 1] := by
    norm_num [linspace, List.range_succ]
  have e2 : (sweepBatteryCost solver base (linspace (12/100) 1 2)).2
      = { base.storage with battery_cost_per_kWh := 1 } := by
    rw [hl]
    rfl
  refine ⟨hl, e2, ?_⟩
  intro h150 heq
  rw [e2] at heq
  have hc := congrArg Storage.battery_cost_per_kWh heq
  simp at hc
  rw [h150] at hc
  norm_num at hc

theorem battery_cost_sweep_mutates_witness :
    p2bW.storage.battery_cost_per_kWh = 150 ∧
    (sweepBatteryCost (fun _ => out2bInf) p2bW (linspace (12/100) 1 2)).2
      ≠ p2bW.storage :=
  ⟨rfl, (battery_cost_sweep_mutates (fun _ => out2bInf) p2bW).2.2 rfl⟩

theorem step_half_pos : (0:ℚ) < 1/2 := by norm_num

theorem sweepGEList_eval :
    sweepGEList 1 (1/2) step_half_pos 0 = [0, 1/2, 1] := by
  rw [sweepGEList]
  norm_num
  rw [sweepGEList]
  norm_num
  rw [sweepGEList]
  norm_num
  rw [sweepGEList]
  norm_num

/-- **C9**: `run_export_tariff_sweep(0.0, 1.0, 0.5)` returns exactly 3
records, in iteration order over the swept range, tagged with `GE` values
`0`, `1/2`, `1` ascending — for any behaviour of the external solver. -/
theorem export_tariff_sweep_ordering (solver : Params1a → Out1a)
    (base : Params1a) :
    (runExportTariffSweep solver base 0 1 (1/2) step_half_pos).length = 3 ∧
    (runExportTariffSweep solver base 0 1 (1/2) step_half_pos).map
        (rlookup Key.tag_GE)
      = [some (RVal.num 0), some (RVal.num (1/2)), some (RVal.num 1)] ∧
    runExportTariffSweep solver base 0 1 (1/2) step_half_pos
      = [setKey Key.tag_GE (RVal.num 0)
           (run1a { base with GE := 0 } (solver { base with GE := 0 })),
         setKey Key.tag_GE (RVal.num (1/2))
           (run1a { base with GE := 1/2 } (solver { base with GE := 1/2 })),
         setKey Key.tag_GE (RVal.num 1)
           (run1a { base with GE := 1 } (solver { base with GE := 1 }))] := by
  have hr0 : pyRound2 0 = 0 := by norm_num [pyRound2, round_eq]
  have hrh : pyRound2 (2⁻¹ : ℚ) = 2⁻¹ := by norm_num [pyRound2, round_eq]
  have hr1 : pyRound2 1 = 1 := by norm_num [pyRound2, round_eq]
  have hx : runExportTariffSweep solver base 0 1 (1/2) step_half_pos
      = [setKey Key.tag_GE (RVal.num 0)
           (run1a { base with GE := 0 } (solver { base with GE := 0 })),
         setKey Key.tag_GE (RVal.num (1/2))
           (run1a { base with GE := 1/2 } (solver { base with GE := 1/2 })),
         setKey Key.tag_GE (RVal.num 1)
           (run1a { base with GE := 1 } (solver { base with GE := 1 }))] := by
    unfold runExportTariffSweep
    rw [sweepGEList_eval]
    simp [hr0, hrh, hr1]
  refine ⟨by rw [hx]; rfl, ?_, hx⟩
  rw [hx]
  simp [rlookup_setKey_same]

/-- **C10**: the 1c tolerance sweep is insensitive to its swept parameter:
for any two tolerance ratios `t1`, `t2` (same remaining data, same abstract
solver), `sweep_tolerance_1c` builds identical optimization models
(`build1c` results are equal), and its two records agree after the
`"tolerance_ratio"` tag is removed, which carries `t1` in the first record —
because the `"tolerance"` params entry is never read by
`OptimizationModel1c.build_model`, whose deviation constraints carry no
tolerance term. -/
theorem tolerance_sweep_1c_insensitive
    (solver : (Sol1c → Prop) × (Sol1c → ℚ) → Out1c) (base : Params1c)
    (t1 t2 : ℚ) :
    build1c (mkParamsTol1c base t1) = build1c (mkParamsTol1c base t2) ∧
    eraseKey Key.tag_tol (sweepTolerance1c solver base t1)
      = eraseKey Key.tag_tol (sweepTolerance1c solver base t2) ∧
    rlookup Key.tag_tol (sweepTolerance1c solver base t1)
      = some (RVal.num t1) := by
  refine ⟨rfl, ?_, rlookup_setKey_same _ _ _⟩
  show eraseKey Key.tag_tol (setKey Key.tag_tol (RVal.num t1) _)
      = eraseKey Key.tag_tol (setKey Key.tag_tol (RVal.num t2) _)
  rw [eraseKey_setKey, eraseKey_setKey]
  rfl
